import Mathlib

/-!
Verification development for the WebCrawler repository's fetch-scheduling and
session layer.  The definitions below are shallow embeddings of the Python
sources under `src/scraper/`:

* `scraper/utils/rate_limiter.py` — `RateLimiter` and `DomainAwareRateLimiter`
  (rate pacing, concurrency semaphore protocol, error backoff);
* `scraper/core/crawler.py` — `WebCrawler` (`initialize`, `fetch_page`,
  `_fetch_with_http`, `close`);
* `scraper/auth/auth_manager.py` — `AuthManager` (`_get_credentials`,
  `_authenticate_with_http`, `_verify_login_success_html`);
* `scraper/utils/exceptions.py` — the exception taxonomy.

Timestamps, delays and jitter draws are modelled as rationals; Python dicts
are modelled as association lists; `random.uniform(a, b)` draws and the
current wall-clock time are passed in as explicit parameters, constrained by
hypotheses where the source constrains them.
-/

namespace WebCrawlerSpec

/-! ### Association-list model of Python dicts -/

/-- Lookup of a key in an association list (Python `d.get(k)` / `d[k]`). -/
def lookupKey {α : Type} : List (String × α) → String → Option α
  | [], _ => none
  | (k', v) :: t, k => if k' = k then some v else lookupKey t k

/-- Store a value under a key (Python `d[k] = v`). -/
def setKey {α : Type} : List (String × α) → String → α → List (String × α)
  | [], k, v => [(k, v)]
  | (k', v') :: t, k, v =>
      if k' = k then (k, v) :: t else (k', v') :: setKey t k v

/-- Delete a key (Python `del d[k]`). -/
def eraseKey {α : Type} : List (String × α) → String → List (String × α)
  | [], _ => []
  | (k', v') :: t, k =>
      if k' = k then eraseKey t k else (k', v') :: eraseKey t k

/-- Whether character list `hay` starts with `pat`. -/
def leadsWith : List Char → List Char → Bool
  | [], _ => true
  | _ :: _, [] => false
  | p :: ps, h :: hs => p == h && leadsWith ps hs

/-- Whether `pat` occurs contiguously in `hay` (Python `pat in hay` on
strings). -/
def occursIn (pat : List Char) : List Char → Bool
  | [] => pat.isEmpty
  | h :: hs => leadsWith pat (h :: hs) || occursIn pat hs

/-- Python `sub in hay` for strings. -/
def containsText (hay sub : String) : Bool := occursIn sub.toList hay.toList

/-- Python `s.lower()`. -/
def lowerString (s : String) : String := String.mk (s.toList.map Char.toLower)

/-- Python `s.startswith(pre)`. -/
def startsWithText (s pre : String) : Bool := leadsWith pre.toList s.toList

/-! ### `RateLimiter` (rate_limiter.py, lines 15-144)

State of a `RateLimiter` instance.  `semAvailable` models the counter of the
`asyncio.Semaphore(concurrent_requests)`; `lastRequestTime` models
`_last_request_time`; `activeDomains` models `_active_domains`. -/

structure RLState where
  delay : ℚ
  jitter : ℚ
  concurrentRequests : Nat
  domainSpecificDelays : List (String × ℚ)
  semAvailable : Nat
  lastRequestTime : List (String × ℚ)
  activeDomains : List String
deriving DecidableEq

/-- `RateLimiter.__init__` (rate_limiter.py, lines 18-46). -/
def RLState.init (delay jitter : ℚ) (concurrentRequests : Nat)
    (domainSpecificDelays : List (String × ℚ)) : RLState :=
  { delay := delay
    jitter := jitter
    concurrentRequests := concurrentRequests
    domainSpecificDelays := domainSpecificDelays
    semAvailable := concurrentRequests
    lastRequestTime := []
    activeDomains := [] }

/-- `RateLimiter._wait_for_domain` (rate_limiter.py, lines 62-89).
`now` is the value of `time.time()` on entry; `j` is the draw of
`random.uniform(-jitter, jitter)`.  Returns the slept duration and the new
state; the recorded `_last_request_time[domain]` is the time after the sleep
(`time.time()` at line 89), i.e. `now + wait`. -/
def waitForDomain (st : RLState) (domain : String) (now j : ℚ) : ℚ × RLState :=
  let domainDelay := (lookupKey st.domainSpecificDelays domain).getD st.delay
  let lastRequest := (lookupKey st.lastRequestTime domain).getD 0
  let timeSinceLast := now - lastRequest
  let wait :=
    if timeSinceLast < domainDelay ∧ domain ∈ st.activeDomains then
      max 0 (domainDelay - timeSinceLast + j)
    else 0
  (wait,
    { st with
        activeDomains :=
          if domain ∈ st.activeDomains then st.activeDomains
          else domain :: st.activeDomains
        lastRequestTime := setKey st.lastRequestTime domain (now + wait) })

/-- `RateLimiter.release` (rate_limiter.py, lines 123-135).  `now` is the value
of `time.time()` at line 132. -/
def RLState.release (st : RLState) (domain : Option String) (now : ℚ) : RLState :=
  let st' :=
    match domain with
    | some d => { st with lastRequestTime := setKey st.lastRequestTime d now }
    | none => st
  { st' with semAvailable := st'.semAvailable + 1 }

/-! ### `DomainAwareRateLimiter` (rate_limiter.py, lines 147-227) -/

structure DAState extends RLState where
  requestCounts : List (String × Nat)
  errorCounts : List (String × Nat)
  backoffDelays : List (String × ℚ)
deriving DecidableEq

/-- `DomainAwareRateLimiter.__init__` (rate_limiter.py, lines 150-160). -/
def DAState.init (delay jitter : ℚ) (concurrentRequests : Nat)
    (domainSpecificDelays : List (String × ℚ)) : DAState :=
  { RLState.init delay jitter concurrentRequests domainSpecificDelays with
    requestCounts := []
    errorCounts := []
    backoffDelays := [] }

/-- `DomainAwareRateLimiter.report_success` (rate_limiter.py, lines 185-198). -/
def reportSuccess (st : DAState) (domain : String) : DAState :=
  { st with
      errorCounts := eraseKey st.errorCounts domain
      backoffDelays := eraseKey st.backoffDelays domain }

/-- `DomainAwareRateLimiter.report_error` (rate_limiter.py, lines 200-227).
`r` is the draw of `random.uniform(0.8, 1.2)` at line 218. -/
def reportError (st : DAState) (domain : String) (r : ℚ) : DAState :=
  let errorCount := (lookupKey st.errorCounts domain).getD 0 + 1
  let st₁ := { st with errorCounts := setKey st.errorCounts domain errorCount }
  if 3 ≤ errorCount then
    let backoffDelay : ℚ := min ((2 : ℚ) ^ (errorCount - 2)) 300
    let backoffDelay := backoffDelay * r
    let st₂ := { st₁ with backoffDelays := setKey st₁.backoffDelays domain backoffDelay }
    if 10 ≤ errorCount then
      { st₂ with backoffDelays := setKey st₂.backoffDelays domain 3600 }
    else st₂
  else st₁

/-- `DomainAwareRateLimiter.wait_for_request` with a domain
(rate_limiter.py, lines 162-183): sleep the stored backoff delay if any,
increment the request count, then apply `RateLimiter._wait_for_domain`.
Returns the total slept duration and the new state. -/
def daWaitForRequest (st : DAState) (domain : String) (now j : ℚ) : ℚ × DAState :=
  let backoffSleep :=
    match lookupKey st.backoffDelays domain with
    | some b => b
    | none => 0
  let st₁ :=
    { st with
        requestCounts :=
          setKey st.requestCounts domain ((lookupKey st.requestCounts domain).getD 0 + 1) }
  let (w, base) := waitForDomain st₁.toRLState domain (now + backoffSleep) j
  (backoffSleep + w,
    { st₁ with toRLState := base })

/-! ### Concurrency protocol of the semaphore and of `fetch_page`

A labelled transition system over the operations the source actually
performs.  `RateLimiter.acquire` (rate_limiter.py, line 112) takes one
permit from the `asyncio.Semaphore`; `RateLimiter.release` (line 135) gives
one back; it is released exactly once per successful `acquire` (the context
manager at lines 137-144).  `WebCrawler.fetch_page` (crawler.py, line 153)
calls `self.rate_limiter.wait_for_request()` only — it never touches the
semaphore — so starting a fetch leaves the permit counter untouched. -/

structure ConcState where
  avail : Nat
  holders : Nat
  fetchesInFlight : Nat
deriving DecidableEq

inductive ConcStep : ConcState → ConcState → Prop
  | acquire (s : ConcState) (h : 0 < s.avail) :
      ConcStep s { s with avail := s.avail - 1, holders := s.holders + 1 }
  | release (s : ConcState) (h : 0 < s.holders) :
      ConcStep s { s with avail := s.avail + 1, holders := s.holders - 1 }
  | fetchStart (s : ConcState) :
      ConcStep s { s with fetchesInFlight := s.fetchesInFlight + 1 }
  | fetchEnd (s : ConcState) (h : 0 < s.fetchesInFlight) :
      ConcStep s { s with fetchesInFlight := s.fetchesInFlight - 1 }

/-- States reachable from a fresh `RateLimiter(concurrent_requests := n)`:
all permits available, no holders, no fetch in flight. -/
inductive ConcReachable (n : Nat) : ConcState → Prop
  | init : ConcReachable n { avail := n, holders := 0, fetchesInFlight := 0 }
  | step {s s' : ConcState} : ConcReachable n s → ConcStep s s' → ConcReachable n s'

/-! ### `WebCrawler` (crawler.py) -/

/-- A cookie as stored by `WebCrawler._fetch_with_http`
(crawler.py, lines 183-188). -/
structure Cookie where
  name : String
  value : String
  domain : String
  path : String
deriving DecidableEq

/-- An `aiohttp.ClientSession`, observed through its `closed` flag
(the only attribute crawler.py consults). -/
structure HttpSession where
  closed : Bool
deriving DecidableEq

/-- State of a `WebCrawler` instance (crawler.py, lines 26-63). -/
structure CrawlerState where
  baseUrl : String
  useBrowser : Bool
  session : Option HttpSession
  playwright : Option Unit
  browser : Option Unit
  context : Option Unit
  cookies : List Cookie
  isInitialized : Bool
deriving DecidableEq

/-- `WebCrawler.__init__` (crawler.py, lines 26-63). -/
def CrawlerState.mk0 (baseUrl : String) (useBrowser : Bool) : CrawlerState :=
  { baseUrl := baseUrl
    useBrowser := useBrowser
    session := none
    playwright := none
    browser := none
    context := none
    cookies := []
    isInitialized := false }

/-- `WebCrawler.initialize` (crawler.py, lines 65-75), together with
`_initialize_session` (lines 77-83) and `_initialize_browser`
(lines 85-116). -/
def initCrawler (st : CrawlerState) : CrawlerState :=
  if st.isInitialized then st
  else if st.useBrowser then
    { st with
        playwright := some ()
        browser := some ()
        context := some ()
        isInitialized := true }
  else
    let session :=
      match st.session with
      | some s => if s.closed then ({ closed := false } : HttpSession) else s
      | none => ({ closed := false } : HttpSession)
    { st with session := some session, isInitialized := true }

/-- One of the effects `WebCrawler.close` can perform on a transport
resource (crawler.py, lines 276-290). -/
inductive CloseEffect
  | closeSession
  | closeBrowser
  | stopPlaywright
deriving DecidableEq

/-- `WebCrawler.close` (crawler.py, lines 276-290): returns the new state and
the list of resource-release effects performed. -/
def close (st : CrawlerState) : CrawlerState × List CloseEffect :=
  let (st₁, e₁) :=
    match st.session with
    | some s =>
        if s.closed then (st, ([] : List CloseEffect))
        else ({ st with session := none }, [CloseEffect.closeSession])
    | none => (st, [])
  let (st₂, e₂) :=
    match st₁.browser with
    | some _ => ({ st₁ with browser := none }, [CloseEffect.closeBrowser])
    | none => (st₁, ([] : List CloseEffect))
  let (st₃, e₃) :=
    match st₂.playwright with
    | some _ => ({ st₂ with playwright := none }, [CloseEffect.stopPlaywright])
    | none => (st₂, ([] : List CloseEffect))
  ({ st₃ with isInitialized := false }, e₁ ++ e₂ ++ e₃)

/-- Failure inside the transport-specific retrieval. -/
inductive TransportFailure
  | httpStatus (status : Nat) (url : String)
  | exn (msg : String)
deriving DecidableEq

/-- The typed error `fetch_page` raises: `CrawlerException(f"Failed to fetch
page {url}: {str(e)}")` (crawler.py, line 166), with the underlying cause. -/
inductive FetchError
  | crawlerException (url : String) (cause : TransportFailure)
deriving DecidableEq

/-- An HTTP response as observed by `_fetch_with_http`. -/
structure HttpResponse where
  status : Nat
  body : String
  cookies : List Cookie
deriving DecidableEq

/-- `WebCrawler._fetch_with_http` (crawler.py, lines 168-191): raise
`CrawlerException(f"HTTP error {status} when fetching {url}")` for any status
other than 200; otherwise append the response cookies to `self._cookies` and
return the body text. -/
def fetchWithHttp (st : CrawlerState) (url : String) (resp : HttpResponse) :
    Except TransportFailure (String × CrawlerState) :=
  if resp.status ≠ 200 then
    Except.error (TransportFailure.httpStatus resp.status url)
  else
    Except.ok (resp.body, { st with cookies := st.cookies ++ resp.cookies })

/-- Calls `fetch_page` makes on its collaborators, in order.  The event type
also has constructors for reporting an outcome to the rate limiter so that
their absence from a run's event list is expressible. -/
inductive FetchEvent
  | initEngine
  | waitForRequest
  | transportAttempt
  | reportSuccess
  | reportError
deriving DecidableEq

/-- Abstract environment for one fetch: what the network/browser would do. -/
structure TransportEnv where
  raised : Option String
  httpResp : HttpResponse
  browserContent : String
  browserCookies : List Cookie
deriving DecidableEq

/-- Result of one `fetch_page` call: the collaborator calls it made, the value
returned or error raised, and the final crawler state. -/
structure FetchRun where
  events : List FetchEvent
  result : Except FetchError String
  state : CrawlerState

/-- Model of `urllib.parse.urljoin` as used at crawler.py line 157 (library
collaborator; none of the verified properties depend on its internals). -/
def urljoinModel (base rel : String) : String := base ++ rel

/-- URL normalization in `fetch_page` (crawler.py, lines 156-157). -/
def normalizeUrl (base url : String) : String :=
  if startsWithText url "http://" || startsWithText url "https://" then url
  else urljoinModel base url

/-- `WebCrawler.fetch_page` (crawler.py, lines 137-166): initialize if not yet
initialized, call `rate_limiter.wait_for_request()` (no domain, no semaphore),
normalize the URL, perform the transport fetch, and wrap any exception in a
`CrawlerException`.  There is no retry and no call to
`report_success`/`report_error`. -/
def fetchPage (st : CrawlerState) (url : String) (env : TransportEnv) : FetchRun :=
  let initEvents : List FetchEvent :=
    if st.isInitialized then [] else [FetchEvent.initEngine]
  let st₁ := if st.isInitialized then st else initCrawler st
  let events := initEvents ++ [FetchEvent.waitForRequest, FetchEvent.transportAttempt]
  let url₁ := normalizeUrl st₁.baseUrl url
  match env.raised with
  | some msg =>
      { events := events
        result := Except.error (FetchError.crawlerException url₁ (TransportFailure.exn msg))
        state := st₁ }
  | none =>
      if st₁.useBrowser then
        { events := events
          result := Except.ok env.browserContent
          state :=
            { st₁ with
                cookies :=
                  if env.browserCookies ≠ [] then env.browserCookies else st₁.cookies } }
      else
        match fetchWithHttp st₁ url₁ env.httpResp with
        | Except.ok (body, st₂) =>
            { events := events, result := Except.ok body, state := st₂ }
        | Except.error tf =>
            { events := events
              result := Except.error (FetchError.crawlerException url₁ tf)
              state := st₁ }

/-! ### `AuthManager` (auth_manager.py) -/

/-- The failure phrase list of `_verify_login_success_html`
(auth_manager.py, lines 235-238). -/
def failureTexts : List String :=
  ["incorrect password", "login failed", "invalid credentials",
   "username or password is incorrect", "authentication failed"]

/-- The success indicator list of `_verify_login_success_html`
(auth_manager.py, lines 245-247). -/
def successIndicators : List String :=
  ["logout", "sign out", "account", "profile", "dashboard"]

/-- `AuthManager._verify_login_success_html` (auth_manager.py, lines 220-255):
lower-case the body; any failure phrase ⇒ `False`; otherwise any success
indicator ⇒ `True`; otherwise default `True`. -/
def verifyLoginSuccessHtml (html : String) : Bool :=
  let htmlLower := lowerString html
  if failureTexts.any (fun t => containsText htmlLower t) then false
  else if successIndicators.any (fun t => containsText htmlLower t) then true
  else true

/-- The session handle `_authenticate_with_http` produces: the live
`aiohttp.ClientSession` together with the cookies it stored into
`crawler._cookies` (auth_manager.py, lines 163-176). -/
structure SessionHandle where
  cookies : List Cookie
deriving DecidableEq

/-- Why `_authenticate_with_http` raises `AuthenticationException`. -/
inductive AuthFailure
  | badStatus (status : Nat)
  | verificationFailed
deriving DecidableEq

/-- The response-classification phase of `AuthManager._authenticate_with_http`
(auth_manager.py, lines 152-176), applied to the login-form submission
response: non-(200/301/302/303) status fails; then the body is classified by
`_verify_login_success_html`; on success the response cookies become the
session's stored cookies.  Every failure is surfaced as
`AuthenticationException` (lines 155, 161, 178-180). -/
def authenticateHttpResponse (resp : HttpResponse) : Except AuthFailure SessionHandle :=
  if resp.status ∈ ([200, 301, 302, 303] : List Nat) then
    if verifyLoginSuccessHtml resp.body then
      Except.ok { cookies := resp.cookies }
    else
      Except.error AuthFailure.verificationFailed
  else
    Except.error (AuthFailure.badStatus resp.status)

/-- A value in a Python credentials dict (`_prompt_for_credentials` stores the
`save` flag as a bool next to string fields). -/
inductive CredValue
  | str (s : String)
  | bool (b : Bool)
deriving DecidableEq

/-- A credentials dict. -/
def Creds : Type := List (String × CredValue)

instance : DecidableEq Creds := by
  unfold Creds
  infer_instance

/-- Python truthiness of `creds.get('save', False)`
(auth_manager.py, line 317). -/
def truthySave : Option CredValue → Bool
  | some (CredValue.bool b) => b
  | some (CredValue.str s) => !(s == "")
  | none => false

/-- The fields of an `AuthManager` instance relevant to credential
resolution (auth_manager.py, lines 24-35). -/
structure AuthState where
  credentials : Option Creds
  secureStorage : Bool
deriving DecidableEq

/-- Environment of `_get_credentials`: what each external source would
yield.  `keyring` models `_get_from_keyring`, `config` models
`_get_from_config`, `prompt` models `_prompt_for_credentials`. -/
structure CredEnv where
  keyring : Option Creds
  config : Option Creds
  prompt : Creds
deriving DecidableEq

/-- A credential source, in the order `_get_credentials` consults them. -/
inductive CredSource
  | cache
  | keyring
  | config
  | prompt
deriving DecidableEq

/-- `AuthManager._get_credentials` (auth_manager.py, lines 289-325): cached
credentials win; otherwise the keyring is consulted only when
`secure_storage` is set; otherwise the config file; otherwise the user is
prompted (and the `save` flag is stripped when set, the persistence write
being an external side effect).  Returns the credentials, the new state and
the list of sources consulted, in order. -/
def getCredentials (st : AuthState) (env : CredEnv) :
    Creds × AuthState × List CredSource :=
  match st.credentials with
  | some c => (c, st, [CredSource.cache])
  | none =>
      let fromPrompt (pre : List CredSource) : Creds × AuthState × List CredSource :=
        let raw := env.prompt
        let creds := if truthySave (lookupKey raw "save") then eraseKey raw "save" else raw
        (creds, { st with credentials := some creds }, pre ++ [CredSource.prompt])
      let fromConfig (pre : List CredSource) : Creds × AuthState × List CredSource :=
        match env.config with
        | some c => (c, { st with credentials := some c }, pre ++ [CredSource.config])
        | none => fromPrompt (pre ++ [CredSource.config])
      if st.secureStorage then
        match env.keyring with
        | some c =>
            (c, { st with credentials := some c },
              [CredSource.cache, CredSource.keyring])
        | none => fromConfig [CredSource.cache, CredSource.keyring]
      else
        fromConfig [CredSource.cache]

/-- The credentials the prompt branch of `_get_credentials` resolves to: the
prompted dict with the `save` flag stripped when it is set
(auth_manager.py, lines 314-318). -/
def promptResolved (env : CredEnv) : Creds :=
  if truthySave (lookupKey env.prompt "save") then eraseKey env.prompt "save" else env.prompt

/-! ### Derived notions for the backoff analysis -/

/-- A sequence of consecutive `report_error` calls for one domain, with the
given `random.uniform(0.8, 1.2)` draws. -/
def afterErrors (st : DAState) (domain : String) (rs : List ℚ) : DAState :=
  rs.foldl (fun s r => reportError s domain r) st

/-- The consecutive-error count the limiter holds for a domain
(`self._error_counts.get(domain, 0)`). -/
def ecount (st : DAState) (domain : String) : Nat :=
  (lookupKey st.errorCounts domain).getD 0

/-- The backoff delay stored for a domain, if any
(`self._backoff_delays.get(domain)`). -/
def backoffOf (st : DAState) (domain : String) : Option ℚ :=
  lookupKey st.backoffDelays domain

/-- The backoff value `report_error` stores when the new error count is `n ≥ 3`
and the random draw is `r`: `min(2^(n-2), 300) * r`, overridden by `3600`
once `n ≥ 10`. -/
def bvalue (n : Nat) (r : ℚ) : ℚ :=
  if 10 ≤ n then 3600 else min ((2 : ℚ) ^ (n - 2)) 300 * r

/-- The range `random.uniform(0.8, 1.2)` draws from. -/
def rOK (r : ℚ) : Prop := (0.8 : ℚ) ≤ r ∧ r ≤ (1.2 : ℚ)

/-- Order on optionally-recorded delays: an absent record precedes anything;
a recorded delay never disappears and must not decrease. -/
def optionLE : Option ℚ → Option ℚ → Prop
  | none, _ => True
  | some _, none => False
  | some a, some b => a ≤ b

/-- Invariant tying the stored backoff delay to the error count for states
produced by consecutive `report_error` calls. -/
def backoffInv (st : DAState) (domain : String) : Prop :=
  (backoffOf st domain = none ∧ ecount st domain ≤ 2) ∨
  (∃ r₀, rOK r₀ ∧ 3 ≤ ecount st domain ∧
    backoffOf st domain = some (bvalue (ecount st domain) r₀))

/-- Modelled from the spec: the backoff formula the specification states for
`report` on failure — "delay escalates exponentially (`base * 2^(count-2)`,
capped at a configured ceiling, e.g. 300s) with ±20% randomization" — for
comparison against what `report_error` stores. -/
def specBackoffFormula (base : ℚ) (count : Nat) (r : ℚ) : ℚ :=
  min (base * 2 ^ (count - 2)) 300 * r

/-! ### Helper lemmas -/

theorem lookupKey_setKey_self {α : Type} (l : List (String × α)) (k : String) (v : α) :
    lookupKey (setKey l k v) k = some v := by
  induction l with
  | nil => simp [setKey, lookupKey]
  | cons hd t ih =>
      obtain ⟨k', v'⟩ := hd
      by_cases h : k' = k
      · simp [setKey, h, lookupKey]
      · simp [setKey, h, lookupKey, ih]

theorem lookupKey_setKey_other {α : Type} (l : List (String × α)) (k k₀ : String) (v : α)
    (hne : k₀ ≠ k) : lookupKey (setKey l k₀ v) k = lookupKey l k := by
  induction l with
  | nil => simp [setKey, lookupKey, hne]
  | cons hd t ih =>
      obtain ⟨k', v'⟩ := hd
      by_cases h : k' = k₀
      · subst h
        simp [setKey, lookupKey, hne]
      · simp [setKey, h, lookupKey, ih]

theorem lookupKey_eraseKey_self {α : Type} (l : List (String × α)) (k : String) :
    lookupKey (eraseKey l k) k = none := by
  induction l with
  | nil => simp [eraseKey, lookupKey]
  | cons hd t ih =>
      obtain ⟨k', v'⟩ := hd
      by_cases h : k' = k
      · simp [eraseKey, h, ih]
      · simp [eraseKey, h, lookupKey, ih]

theorem initCrawler_isInitialized (st : CrawlerState) :
    (initCrawler st).isInitialized = true := by
  unfold initCrawler
  split_ifs with h₁ h₂ <;> simp_all

theorem initCrawler_baseUrl (st : CrawlerState) :
    (initCrawler st).baseUrl = st.baseUrl := by
  unfold initCrawler
  split_ifs <;> rfl

theorem initCrawler_useBrowser (st : CrawlerState) :
    (initCrawler st).useBrowser = st.useBrowser := by
  unfold initCrawler
  split_ifs <;> rfl

theorem initCrawler_of_isInitialized (st : CrawlerState) (h : st.isInitialized = true) :
    initCrawler st = st := by
  unfold initCrawler
  rw [if_pos h]

theorem fetchPage_init_state (st : CrawlerState) :
    (if st.isInitialized then st else initCrawler st) = initCrawler st := by
  by_cases h : st.isInitialized
  · rw [if_pos h, initCrawler_of_isInitialized st h]
  · rw [if_neg h]

theorem initCrawler_session_isSome (st : CrawlerState) (hi : st.isInitialized = false)
    (h : st.useBrowser = false) : (initCrawler st).session.isSome = true := by
  unfold initCrawler
  rcases hs : st.session with _ | s
  · simp [hi, h, hs]
  · simp only [hi, h, hs, Bool.false_eq_true, if_false]
    split_ifs <;> simp

theorem initCrawler_browser_isSome (st : CrawlerState) (hi : st.isInitialized = false)
    (h : st.useBrowser = true) : (initCrawler st).browser.isSome = true := by
  simp [initCrawler, hi, h]

theorem fetchPage_state_fields (st : CrawlerState) (url : String) (env : TransportEnv) :
    (fetchPage st url env).state.session = (initCrawler st).session ∧
    (fetchPage st url env).state.browser = (initCrawler st).browser ∧
    (fetchPage st url env).state.isInitialized = (initCrawler st).isInitialized := by
  unfold fetchPage fetchWithHttp
  rw [fetchPage_init_state]
  rcases env.raised with _ | msg
  · split_ifs <;> (try simp) <;> (try split_ifs) <;> (try simp)
  · simp

theorem fetchPage_eq_fetchPage_initCrawler (st : CrawlerState) (url : String)
    (env : TransportEnv) :
    (fetchPage st url env).result = (fetchPage (initCrawler st) url env).result ∧
    (fetchPage st url env).state = (fetchPage (initCrawler st) url env).state := by
  have hkey : initCrawler (initCrawler st) = initCrawler st :=
    initCrawler_of_isInitialized _ (initCrawler_isInitialized st)
  rcases henv : env.raised with _ | msg
  · by_cases hb : (initCrawler st).useBrowser = true
    · constructor <;> simp [fetchPage, fetchPage_init_state, hkey, henv, hb]
    · rcases hf : fetchWithHttp (initCrawler st)
          (normalizeUrl (initCrawler st).baseUrl url) env.httpResp with e | ⟨body, st₂⟩ <;>
        constructor <;> simp [fetchPage, fetchPage_init_state, hkey, henv, hb, hf]
  · constructor <;> simp [fetchPage, fetchPage_init_state, hkey, henv]

/-- **C10.** Calling `fetch_page` on an engine that has not yet been
initialized first performs initialization (establishing the transport
resource for the configured transport — an HTTP session for the lightweight
transport, a browser for the browser transport) and then proceeds with the
fetch: the call returns the same result and final state as it would on the
initialized engine, so `fetch_page` never fails merely because
`initialize()` was not called beforehand; after the call the engine is in
the initialized state. -/
theorem fetchPage_initializes_first (st : CrawlerState) (url : String) (env : TransportEnv) :
    (fetchPage st url env).state.isInitialized = true ∧
    (fetchPage st url env).result = (fetchPage (initCrawler st) url env).result ∧
    (fetchPage st url env).state = (fetchPage (initCrawler st) url env).state ∧
    (st.isInitialized = false → st.useBrowser = false →
      (fetchPage st url env).state.session.isSome = true) ∧
    (st.isInitialized = false → st.useBrowser = true →
      (fetchPage st url env).state.browser.isSome = true) := by
  obtain ⟨hsess, hbrow, hinit⟩ := fetchPage_state_fields st url env
  obtain ⟨hres, hstate⟩ := fetchPage_eq_fetchPage_initCrawler st url env
  refine ⟨?_, hres, hstate, ?_, ?_⟩
  · rw [hinit, initCrawler_isInitialized]
  · intro hi hb
    rw [hsess]
    exact initCrawler_session_isSome st hi hb
  · intro hi hb
    rw [hbrow]
    exact initCrawler_browser_isSome st hi hb

/-- Witness for C10 at a concrete uninitialized crawler and a concrete
successful HTTP response. -/
theorem fetchPage_initializes_first_witness :
    (fetchPage (CrawlerState.mk0 "http://example.com" false) "/page"
        { raised := none
          httpResp := { status := 200, body := "<html></html>", cookies := [] }
          browserContent := ""
          browserCookies := [] }).state.session.isSome = true ∧
    (fetchPage (CrawlerState.mk0 "http://example.com" false) "/page"
        { raised := none
          httpResp := { status := 200, body := "<html></html>", cookies := [] }
          browserContent := ""
          browserCookies := [] }).state.isInitialized = true := by
  refine ⟨?_, ?_⟩
  · exact (fetchPage_initializes_first (CrawlerState.mk0 "http://example.com" false) "/page"
      _).2.2.2.1 rfl rfl
  · exact (fetchPage_initializes_first (CrawlerState.mk0 "http://example.com" false) "/page"
      _).1

/-- **C9.** `WebCrawler.close` is idempotent: on any crawler state, a second
`close` immediately after a first one performs no resource-release effect and
leaves the state unchanged (so transport resources are never double-freed),
and `close` on a freshly constructed, never-initialized crawler performs no
resource-release effect and leaves the fresh state unchanged.  `close` is a
total function of the state, so it never throws. -/
theorem close_idempotent (st : CrawlerState) (baseUrl : String) (useBrowser : Bool) :
    close (close st).1 = ((close st).1, []) ∧
    close (CrawlerState.mk0 baseUrl useBrowser) = (CrawlerState.mk0 baseUrl useBrowser, []) := by
  constructor
  · obtain ⟨b, u, sess, pw, br, ctx, ck, ini⟩ := st
    rcases sess with _ | ⟨⟨cl⟩⟩
    · rcases pw with _ | ⟨⟩ <;> rcases br with _ | ⟨⟩ <;> simp [close]
    · cases cl <;> rcases pw with _ | ⟨⟩ <;> rcases br with _ | ⟨⟩ <;> simp [close]
  · simp [close, CrawlerState.mk0]

/-! ### Helper lemmas on the backoff state -/

theorem afterErrors_append (st : DAState) (d : String) (rs : List ℚ) (r : ℚ) :
    afterErrors st d (rs ++ [r]) = reportError (afterErrors st d rs) d r := by
  simp [afterErrors, List.foldl_append]

theorem afterErrors_cons (st : DAState) (d : String) (a : ℚ) (t : List ℚ) :
    afterErrors st d (a :: t) = afterErrors (reportError st d a) d t := by
  simp [afterErrors]

theorem ecount_reportError (st : DAState) (d : String) (r : ℚ) :
    ecount (reportError st d r) d = ecount st d + 1 := by
  simp only [ecount, reportError]
  split_ifs <;> simp [lookupKey_setKey_self]

theorem backoffOf_reportError (st : DAState) (d : String) (r : ℚ) :
    backoffOf (reportError st d r) d =
      if 3 ≤ ecount st d + 1 then some (bvalue (ecount st d + 1) r)
      else backoffOf st d := by
  simp only [backoffOf, reportError, ecount, bvalue]
  by_cases h1 : 3 ≤ (lookupKey st.errorCounts d).getD 0 + 1
  · rw [if_pos h1, if_pos h1]
    by_cases h2 : 10 ≤ (lookupKey st.errorCounts d).getD 0 + 1
    · rw [if_pos h2, if_pos h2]
      simp [lookupKey_setKey_self]
    · rw [if_neg h2, if_neg h2]
      simp [lookupKey_setKey_self]
  · rw [if_neg h1, if_neg h1]

theorem ecount_afterErrors (st : DAState) (d : String) (rs : List ℚ) :
    ecount (afterErrors st d rs) d = ecount st d + rs.length := by
  induction rs generalizing st with
  | nil => simp [afterErrors]
  | cons a t ih =>
      rw [afterErrors_cons, ih, ecount_reportError]
      simp [List.length_cons]
      omega

theorem ecount_init (delay jitter : ℚ) (n : Nat) (dd : List (String × ℚ)) (d : String) :
    ecount (DAState.init delay jitter n dd) d = 0 := by
  simp [ecount, DAState.init, RLState.init, lookupKey]

theorem backoffInv_init (delay jitter : ℚ) (n : Nat) (dd : List (String × ℚ)) (d : String) :
    backoffInv (DAState.init delay jitter n dd) d := by
  left
  constructor
  · simp [backoffOf, DAState.init, RLState.init, lookupKey]
  · simp [ecount_init]

theorem bvalue_mono {n : Nat} (h3 : 3 ≤ n) {r₀ r : ℚ} (h₀ : rOK r₀) (hr : rOK r) :
    bvalue n r₀ ≤ bvalue (n + 1) r := by
  obtain ⟨h₀l, h₀u⟩ := h₀
  obtain ⟨hrl, hru⟩ := hr
  unfold bvalue
  by_cases h10 : 10 ≤ n
  · have h10' : 10 ≤ n + 1 := by omega
    simp [h10, h10']
  · by_cases h10s : 10 ≤ n + 1
    · have hn : n = 9 := by omega
      subst hn
      simp only [if_neg h10, if_pos h10s]
      have hmin : min ((2 : ℚ) ^ (9 - 2)) 300 = 128 := by norm_num
      rw [hmin]
      nlinarith
    · have hn8 : n ≤ 8 := by omega
      simp only [if_neg h10, if_neg h10s]
      have hpow : (2 : ℚ) ^ (n - 2) ≤ 2 ^ 6 := by
        apply pow_le_pow_right₀ (by norm_num) (by omega)
      have hpos : (0 : ℚ) < 2 ^ (n - 2) := by positivity
      have hmin1 : min ((2 : ℚ) ^ (n - 2)) 300 = (2 : ℚ) ^ (n - 2) := by
        apply min_eq_left
        nlinarith
      have hstep : n + 1 - 2 = (n - 2) + 1 := by omega
      have hpow2 : (2 : ℚ) ^ (n + 1 - 2) = 2 * 2 ^ (n - 2) := by
        rw [hstep, pow_succ]
        ring
      have hmin2 : min ((2 : ℚ) ^ (n + 1 - 2)) 300 = (2 : ℚ) ^ (n + 1 - 2) := by
        apply min_eq_left
        rw [hpow2]
        nlinarith
      rw [hmin1, hmin2, hpow2]
      nlinarith [mul_le_mul_of_nonneg_left (show r₀ ≤ 2 * r by nlinarith) (le_of_lt hpos)]

theorem backoffInv_step {st : DAState} {d : String} (h : backoffInv st d) {r : ℚ}
    (hr : rOK r) :
    backoffInv (reportError st d r) d ∧
      optionLE (backoffOf st d) (backoffOf (reportError st d r) d) := by
  have hec := ecount_reportError st d r
  have hbo := backoffOf_reportError st d r
  by_cases h3 : 3 ≤ ecount st d + 1
  · rw [if_pos h3] at hbo
    constructor
    · right
      refine ⟨r, hr, ?_, ?_⟩
      · omega
      · rw [hec, hbo]
    · rcases h with ⟨hnone, hle⟩ | ⟨r₀, hr₀, h3', hbe⟩
      · rw [hnone]
        trivial
      · rw [hbe, hbo]
        show bvalue (ecount st d) r₀ ≤ bvalue (ecount st d + 1) r
        exact bvalue_mono h3' hr₀ hr
  · rw [if_neg h3] at hbo
    rcases h with ⟨hnone, hle⟩ | ⟨r₀, hr₀, h3', hbe⟩
    · constructor
      · left
        constructor
        · rw [hbo, hnone]
        · omega
      · rw [hnone]
        trivial
    · exact absurd (by omega : 3 ≤ ecount st d + 1) h3

theorem backoffInv_afterErrors (st : DAState) (d : String) (h : backoffInv st d)
    (rs : List ℚ) (hrs : ∀ r ∈ rs, rOK r) : backoffInv (afterErrors st d rs) d := by
  induction rs generalizing st with
  | nil => simpa [afterErrors] using h
  | cons a t ih =>
      rw [afterErrors_cons]
      exact ih _ ((backoffInv_step h (hrs a (by simp))).1)
        (fun r hrm => hrs r (by simp [hrm]))

theorem waitForDomain_nonneg (st : RLState) (d : String) (now j : ℚ) :
    0 ≤ (waitForDomain st d now j).1 := by
  simp only [waitForDomain]
  split_ifs
  · exact le_max_left 0 _
  · exact le_refl 0

theorem daWait_ge_backoff (st : DAState) (d : String) (b now j : ℚ)
    (h : lookupKey st.backoffDelays d = some b) :
    b ≤ (daWaitForRequest st d now j).1 := by
  have hw := waitForDomain_nonneg
    { st with
        requestCounts :=
          setKey st.requestCounts d ((lookupKey st.requestCounts d).getD 0 + 1) }.toRLState
    d (now + b) j
  simp only [daWaitForRequest, h]
  linarith

/-- **C2.** For every domain and every sequence of consecutive `report_error`
calls (random draws in [0.8, 1.2]) starting from a fresh
`DomainAwareRateLimiter`, the backoff delay recorded after the n-th failure
is ≥ the one recorded after the (n-1)-th failure (in the order `optionLE`,
where an absent record precedes anything and a record never disappears); and
a single `report_success` for the domain clears the error count and the
backoff record while leaving the configured delays untouched, restoring the
domain's effective delay to the configured base delay. -/
theorem backoff_monotone_success_resets
    (delay jitter : ℚ) (n : Nat) (dd : List (String × ℚ)) (d : String)
    (rs : List ℚ) (r : ℚ) (hrs : ∀ x ∈ rs, rOK x) (hr : rOK r) :
    optionLE (backoffOf (afterErrors (DAState.init delay jitter n dd) d rs) d)
      (backoffOf (afterErrors (DAState.init delay jitter n dd) d (rs ++ [r])) d) ∧
    (∀ st : DAState, ecount (reportSuccess st d) d = 0 ∧
      backoffOf (reportSuccess st d) d = none ∧
      (reportSuccess st d).delay = st.delay ∧
      (reportSuccess st d).domainSpecificDelays = st.domainSpecificDelays) := by
  constructor
  · rw [afterErrors_append]
    exact (backoffInv_step
      (backoffInv_afterErrors _ d (backoffInv_init delay jitter n dd d) rs hrs) hr).2
  · intro st
    refine ⟨?_, ?_, rfl, rfl⟩
    · simp [ecount, reportSuccess, lookupKey_eraseKey_self]
    · simp [backoffOf, reportSuccess, lookupKey_eraseKey_self]

/-- Witness for C2: three failures with draw 1 record a backoff of 2 s, a
fourth records 4 s (non-decreasing), and a success clears the error count. -/
theorem backoff_monotone_success_resets_witness :
    optionLE
      (backoffOf (afterErrors (DAState.init 1 0 1 []) "example.com" [1, 1, 1]) "example.com")
      (backoffOf (afterErrors (DAState.init 1 0 1 []) "example.com" [1, 1, 1, 1]) "example.com") ∧
    ecount
      (reportSuccess (afterErrors (DAState.init 1 0 1 []) "example.com" [1, 1, 1]) "example.com")
      "example.com" = 0 := by
  constructor
  · have h := (backoff_monotone_success_resets 1 0 1 [] "example.com" [1, 1, 1] 1
      (by intro x hx; fin_cases hx <;> exact ⟨by norm_num, by norm_num⟩)
      ⟨by norm_num, by norm_num⟩).1
    simpa using h
  · exact ((backoff_monotone_success_resets 1 0 1 [] "example.com" [1, 1, 1] 1
      (by intro x hx; fin_cases hx <;> exact ⟨by norm_num, by norm_num⟩)
      ⟨by norm_num, by norm_num⟩).2
      (afterErrors (DAState.init 1 0 1 []) "example.com" [1, 1, 1])).1

/-- **C4 counterexample.** With configured base delay 2.0 s, after the third
consecutive failure with random factor 1 `report_error` stores
`min(2^(3-2), 300) * 1 = 2`, whereas the claimed formula
`min(base * 2^(3-2), 300) * 1` gives 4: the stored backoff ignores the
configured base delay. -/
theorem reportError_ignores_base_delay :
    backoffOf (afterErrors (DAState.init 2 0 1 []) "example.com" [1, 1, 1]) "example.com" =
      some 2 ∧
    specBackoffFormula 2 3 1 = 4 ∧
    (2 : ℚ) ≠ 4 := by
  refine ⟨?_, ?_, by norm_num⟩
  · have hsplit : ([1, 1, 1] : List ℚ) = [1, 1] ++ [1] := by norm_num
    have he : ecount (afterErrors (DAState.init 2 0 1 []) "example.com" [1, 1])
        "example.com" = 2 := by
      rw [ecount_afterErrors, ecount_init]
      rfl
    rw [hsplit, afterErrors_append, backoffOf_reportError, he]
    norm_num [bvalue, min_def]
  · simp [specBackoffFormula, min_def]
    norm_num

/-- **C4 (amended).** For every domain whose consecutive-error count `c`
(reached by `c` consecutive `report_error` calls on a fresh limiter, the last
with random draw `r`) satisfies `3 ≤ c ≤ 9`, the stored backoff delay equals
`min(2^(c-2), 300) * r` — the exponential formula with the ±20% draw, with no
dependence on the configured base delay; and once the count reaches 10, the
stored backoff is exactly 3600 s and the next `wait_for_request` for the
domain waits at least 3600 s regardless of the exponential formula. -/
theorem backoff_values (delay jitter : ℚ) (cn : Nat) (dd : List (String × ℚ))
    (d : String) (rs : List ℚ) (r : ℚ) :
    (3 ≤ rs.length + 1 → rs.length + 1 ≤ 9 →
      backoffOf (reportError (afterErrors (DAState.init delay jitter cn dd) d rs) d r) d =
        some (min ((2 : ℚ) ^ (rs.length + 1 - 2)) 300 * r)) ∧
    (10 ≤ rs.length + 1 →
      backoffOf (reportError (afterErrors (DAState.init delay jitter cn dd) d rs) d r) d =
        some 3600 ∧
      ∀ now j : ℚ, 3600 ≤
        (daWaitForRequest (reportError (afterErrors (DAState.init delay jitter cn dd) d rs) d r)
          d now j).1) := by
  have he : ecount (afterErrors (DAState.init delay jitter cn dd) d rs) d = rs.length := by
    rw [ecount_afterErrors, ecount_init]
    omega
  have hbo := backoffOf_reportError (afterErrors (DAState.init delay jitter cn dd) d rs) d r
  rw [he] at hbo
  constructor
  · intro h3 h9
    rw [hbo, if_pos h3]
    have h10 : ¬ 10 ≤ rs.length + 1 := by omega
    rw [bvalue, if_neg h10]
  · intro h10
    have h3 : 3 ≤ rs.length + 1 := by omega
    have hstored :
        backoffOf (reportError (afterErrors (DAState.init delay jitter cn dd) d rs) d r) d =
          some 3600 := by
      rw [hbo, if_pos h3, bvalue, if_pos h10]
    refine ⟨hstored, ?_⟩
    intro now j
    exact daWait_ge_backoff _ d 3600 now j hstored

/-- Witness for C4: three failures (draw 1) store backoff 2 = min(2^1,300)·1;
ten failures store 3600 and the next admission waits at least 3600 s. -/
theorem backoff_values_witness :
    backoffOf (reportError (afterErrors (DAState.init 1 0 1 []) "example.com" [1, 1])
        "example.com" 1) "example.com" = some (min ((2 : ℚ) ^ (2 + 1 - 2)) 300 * 1) ∧
    backoffOf (reportError
        (afterErrors (DAState.init 1 0 1 []) "example.com" [1, 1, 1, 1, 1, 1, 1, 1, 1])
        "example.com" 1) "example.com" = some 3600 ∧
    3600 ≤ (daWaitForRequest (reportError
        (afterErrors (DAState.init 1 0 1 []) "example.com" [1, 1, 1, 1, 1, 1, 1, 1, 1])
        "example.com" 1) "example.com" 0 0).1 := by
  refine ⟨?_, ?_, ?_⟩
  · exact (backoff_values 1 0 1 [] "example.com" [1, 1] 1).1 (by norm_num) (by norm_num)
  · exact ((backoff_values 1 0 1 [] "example.com" [1, 1, 1, 1, 1, 1, 1, 1, 1] 1).2
      (by norm_num)).1
  · exact ((backoff_values 1 0 1 [] "example.com" [1, 1, 1, 1, 1, 1, 1, 1, 1] 1).2
      (by norm_num)).2 0 0

/-- **C7 counterexample.** `RateLimiter.release` with a domain overwrites the
domain's last-request timestamp with the completion time (rate_limiter.py,
lines 130-132): on a state whose recorded timestamp for `example.com` is 5,
`release(domain="example.com")` at time 10 changes it to 10, contradicting
the claim that releasing leaves the timestamp unchanged. -/
theorem release_changes_lastRequestTime :
    lookupKey
      ((RLState.release
          { delay := 1, jitter := 0, concurrentRequests := 1, domainSpecificDelays := [],
            semAvailable := 0, lastRequestTime := [("example.com", 5)],
            activeDomains := ["example.com"] }
          (some "example.com") 10).lastRequestTime) "example.com" = some 10 ∧
    lookupKey [("example.com", (5 : ℚ))] "example.com" = some 5 ∧
    (10 : ℚ) ≠ 5 := by
  refine ⟨?_, ?_, by norm_num⟩ <;> rfl

/-- **C7 (amended).** `_wait_for_domain` records the admission time (the time
right after its rate-limit sleep) as the domain's last-request timestamp, so
overlapping in-flight requests to the same target space out their starts;
`release` without a domain leaves all last-request timestamps unchanged; but
`release` with a domain overwrites that domain's timestamp again with the
completion time. -/
theorem lastRequestTime_updates (st : RLState) (d : String) (now j t : ℚ) :
    lookupKey ((waitForDomain st d now j).2.lastRequestTime) d =
      some (now + (waitForDomain st d now j).1) ∧
    (RLState.release st none t).lastRequestTime = st.lastRequestTime ∧
    lookupKey ((RLState.release st (some d) t).lastRequestTime) d = some t := by
  refine ⟨?_, rfl, ?_⟩
  · simp [waitForDomain, lookupKey_setKey_self]
  · simp [RLState.release, lookupKey_setKey_self]

/-- **C5 counterexample.** A 204 No Content response has a 2xx status, yet
`_fetch_with_http` raises `CrawlerException` for it: the code accepts exactly
status 200, not all of 2xx. -/
theorem fetchWithHttp_rejects_204 :
    fetchWithHttp (CrawlerState.mk0 "http://example.com" false) "http://example.com/a"
        { status := 204, body := "No Content", cookies := [] } =
      Except.error (TransportFailure.httpStatus 204 "http://example.com/a") ∧
    200 ≤ 204 ∧ 204 < 300 := by
  refine ⟨rfl, by norm_num, by norm_num⟩

/-- **C5 (amended).** For every lightweight-transport fetch whose HTTP
response status differs from 200 (including 2xx statuses other than 200),
`_fetch_with_http` raises a typed `CrawlerException` that preserves the raw
status code; and exactly for status 200 no error is raised and the response
body text is returned (with the response cookies appended to the crawler's
cookie store). -/
theorem fetchWithHttp_status_behavior (st : CrawlerState) (url : String)
    (resp : HttpResponse) :
    (resp.status = 200 →
      fetchWithHttp st url resp =
        Except.ok (resp.body, { st with cookies := st.cookies ++ resp.cookies })) ∧
    (resp.status ≠ 200 →
      fetchWithHttp st url resp = Except.error (TransportFailure.httpStatus resp.status url)) := by
  constructor
  · intro h
    simp [fetchWithHttp, h]
  · intro h
    simp [fetchWithHttp, h]

/-- Witness for C5 (amended): status 200 returns the body, status 404 raises
the typed error carrying 404. -/
theorem fetchWithHttp_status_behavior_witness :
    fetchWithHttp (CrawlerState.mk0 "http://example.com" false) "http://example.com/a"
        { status := 200, body := "ok", cookies := [] } =
      Except.ok ("ok",
        { CrawlerState.mk0 "http://example.com" false with
            cookies := (CrawlerState.mk0 "http://example.com" false).cookies ++ [] }) ∧
    fetchWithHttp (CrawlerState.mk0 "http://example.com" false) "http://example.com/a"
        { status := 404, body := "not found", cookies := [] } =
      Except.error (TransportFailure.httpStatus 404 "http://example.com/a") := by
  constructor
  · exact (fetchWithHttp_status_behavior (CrawlerState.mk0 "http://example.com" false)
      "http://example.com/a" { status := 200, body := "ok", cookies := [] }).1 rfl
  · exact (fetchWithHttp_status_behavior (CrawlerState.mk0 "http://example.com" false)
      "http://example.com/a" { status := 404, body := "not found", cookies := [] }).2
      (by norm_num)

/-- **C6.** For every login response body (with an accepted status, e.g. 200):
if the body contains a configured failure phrase — matching is
case-insensitive — verification classifies the login as failed and
`_authenticate_with_http` raises `AuthenticationException`, even if a success
phrase also appears (the failure loop runs first); if it contains no failure
phrase but a success phrase, verification succeeds and a session handle is
returned; if neither phrase set matches, verification defaults to success. -/
theorem loginVerification_classification (resp : HttpResponse) (hs : resp.status = 200) :
    (failureTexts.any (fun t => containsText (lowerString resp.body) t) = true →
      verifyLoginSuccessHtml resp.body = false ∧
      authenticateHttpResponse resp = Except.error AuthFailure.verificationFailed) ∧
    (failureTexts.any (fun t => containsText (lowerString resp.body) t) = false →
      successIndicators.any (fun t => containsText (lowerString resp.body) t) = true →
      verifyLoginSuccessHtml resp.body = true ∧
      authenticateHttpResponse resp = Except.ok { cookies := resp.cookies }) ∧
    (failureTexts.any (fun t => containsText (lowerString resp.body) t) = false →
      successIndicators.any (fun t => containsText (lowerString resp.body) t) = false →
      verifyLoginSuccessHtml resp.body = true ∧
      authenticateHttpResponse resp = Except.ok { cookies := resp.cookies }) := by
  have hmem : resp.status ∈ ([200, 301, 302, 303] : List Nat) := by simp [hs]
  refine ⟨?_, ?_, ?_⟩
  · intro h1
    have hv : verifyLoginSuccessHtml resp.body = false := by
      simp [verifyLoginSuccessHtml, h1]
    exact ⟨hv, by simp [authenticateHttpResponse, hmem, hv]⟩
  · intro h1 h2
    have hv : verifyLoginSuccessHtml resp.body = true := by
      simp [verifyLoginSuccessHtml, h1, h2]
    exact ⟨hv, by simp [authenticateHttpResponse, hmem, hv]⟩
  · intro h1 h2
    have hv : verifyLoginSuccessHtml resp.body = true := by
      simp [verifyLoginSuccessHtml, h1, h2]
    exact ⟨hv, by simp [authenticateHttpResponse, hmem, hv]⟩

/-- Witness for C6 at concrete bodies: "INVALID CREDENTIALS" (with "logout"
also present) fails, "Click logout here" succeeds with a session handle, and
a body matching no phrase defaults to success. -/
theorem loginVerification_classification_witness :
    verifyLoginSuccessHtml "Logout is available. INVALID CREDENTIALS!" = false ∧
    authenticateHttpResponse
        { status := 200, body := "Logout is available. INVALID CREDENTIALS!", cookies := [] } =
      Except.error AuthFailure.verificationFailed ∧
    verifyLoginSuccessHtml "Click logout here" = true ∧
    authenticateHttpResponse { status := 200, body := "Click logout here", cookies := [] } =
      Except.ok { cookies := [] } ∧
    verifyLoginSuccessHtml "nothing matches" = true := by
  have h1 := (loginVerification_classification
    { status := 200, body := "Logout is available. INVALID CREDENTIALS!", cookies := [] }
    rfl).1 (by decide)
  have h2 := (loginVerification_classification
    { status := 200, body := "Click logout here", cookies := [] } rfl).2.1
    (by decide) (by decide)
  have h3 := (loginVerification_classification
    { status := 200, body := "nothing matches", cookies := [] } rfl).2.2
    (by decide) (by decide)
  exact ⟨h1.1, h1.2, h2.1, h2.2, h3.1⟩

theorem getCredentials_cached (st : AuthState) (env : CredEnv) (c : Creds)
    (h : st.credentials = some c) : getCredentials st env = (c, st, [CredSource.cache]) := by
  simp [getCredentials, h]

/-- **C8 counterexample.** With `secure_storage = False`, `_get_credentials`
never consults the keyring: even though the encrypted secret store (an
earlier source in the claimed fixed order) holds a value, the config file's
value wins. -/
theorem getCredentials_skips_keyring_when_insecure :
    (getCredentials { credentials := none, secureStorage := false }
        { keyring := some [("username", CredValue.str "from-keyring")],
          config := some [("username", CredValue.str "from-config")],
          prompt := [] }).1 = [("username", CredValue.str "from-config")] ∧
    CredSource.keyring ∉
      (getCredentials { credentials := none, secureStorage := false }
          { keyring := some [("username", CredValue.str "from-keyring")],
            config := some [("username", CredValue.str "from-config")],
            prompt := [] }).2.2 ∧
    ([("username", CredValue.str "from-config")] : Creds) ≠
      [("username", CredValue.str "from-keyring")] := by
  refine ⟨rfl, by decide, by decide⟩

/-- **C8 (amended).** When secure storage is enabled (the constructor
default), `_get_credentials` consults sources in the fixed order in-memory
cache → encrypted secret store (keyring) → config file → interactive prompt,
and the first source that yields a value wins; when secure storage is
disabled, the keyring step is skipped entirely.  When every earlier source
yields nothing, the interactive prompt is consulted last and its value wins
(with the `save` flag stripped when it is set).  In every case the resolved
value is cached in memory, so every later resolution returns the cached value
after consulting only the cache. -/
theorem getCredentials_resolution (st : AuthState) (env : CredEnv) :
    (∀ c, st.credentials = some c →
      getCredentials st env = (c, st, [CredSource.cache])) ∧
    (st.credentials = none → st.secureStorage = true → ∀ c, env.keyring = some c →
      getCredentials st env =
        (c, { st with credentials := some c }, [CredSource.cache, CredSource.keyring])) ∧
    (st.credentials = none → st.secureStorage = true → env.keyring = none →
      ∀ c, env.config = some c →
      getCredentials st env =
        (c, { st with credentials := some c },
          [CredSource.cache, CredSource.keyring, CredSource.config])) ∧
    (st.credentials = none → st.secureStorage = true → env.keyring = none →
      env.config = none →
      getCredentials st env =
        (promptResolved env, { st with credentials := some (promptResolved env) },
          [CredSource.cache, CredSource.keyring, CredSource.config, CredSource.prompt])) ∧
    (st.credentials = none → st.secureStorage = false → ∀ c, env.config = some c →
      getCredentials st env =
        (c, { st with credentials := some c }, [CredSource.cache, CredSource.config])) ∧
    (st.credentials = none → st.secureStorage = false → env.config = none →
      getCredentials st env =
        (promptResolved env, { st with credentials := some (promptResolved env) },
          [CredSource.cache, CredSource.config, CredSource.prompt])) ∧
    (getCredentials st env).2.1.credentials = some (getCredentials st env).1 ∧
    getCredentials (getCredentials st env).2.1 env =
      ((getCredentials st env).1, (getCredentials st env).2.1, [CredSource.cache]) := by
  have hpost : (getCredentials st env).2.1.credentials = some (getCredentials st env).1 := by
    rcases hc : st.credentials with _ | c₀
    · rcases hsec : st.secureStorage with _ | _
      · rcases hcfg : env.config with _ | c₁ <;> simp [getCredentials, hc, hsec, hcfg]
      · rcases hk : env.keyring with _ | c₁
        · rcases hcfg : env.config with _ | c₂ <;> simp [getCredentials, hc, hsec, hk, hcfg]
        · simp [getCredentials, hc, hsec, hk]
    · simp [getCredentials, hc]
  refine ⟨?_, ?_, ?_, ?_, ?_, ?_, hpost, ?_⟩
  · intro c h
    exact getCredentials_cached st env c h
  · intro hc hsec c hk
    simp [getCredentials, hc, hsec, hk]
  · intro hc hsec hk c hcfg
    simp [getCredentials, hc, hsec, hk, hcfg]
  · intro hc hsec hk hcfg
    simp [getCredentials, promptResolved, hc, hsec, hk, hcfg]
  · intro hc hsec c hcfg
    simp [getCredentials, hc, hsec, hcfg]
  · intro hc hsec hcfg
    simp [getCredentials, promptResolved, hc, hsec, hcfg]
  · exact getCredentials_cached _ env _ hpost

/-- Witness for C8 (amended): keyring wins under secure storage; when every
earlier source is empty the prompt is consulted last and its value (with the
`save` flag stripped) wins; and the result is cached so a second resolution
consults only the cache. -/
theorem getCredentials_resolution_witness :
    getCredentials { credentials := none, secureStorage := true }
        { keyring := none, config := none,
          prompt := [("username", CredValue.str "u"), ("password", CredValue.str "p"),
            ("save", CredValue.bool true)] } =
      ([("username", CredValue.str "u"), ("password", CredValue.str "p")],
        { credentials :=
            some [("username", CredValue.str "u"), ("password", CredValue.str "p")],
          secureStorage := true },
        [CredSource.cache, CredSource.keyring, CredSource.config, CredSource.prompt]) ∧
    getCredentials { credentials := none, secureStorage := true }
        { keyring := some [("username", CredValue.str "kr")],
          config := some [("username", CredValue.str "cfg")],
          prompt := [] } =
      ([("username", CredValue.str "kr")],
        { credentials := some [("username", CredValue.str "kr")], secureStorage := true },
        [CredSource.cache, CredSource.keyring]) ∧
    getCredentials
        { credentials := some [("username", CredValue.str "kr")], secureStorage := true }
        { keyring := some [("username", CredValue.str "kr")],
          config := some [("username", CredValue.str "cfg")],
          prompt := [] } =
      ([("username", CredValue.str "kr")],
        { credentials := some [("username", CredValue.str "kr")], secureStorage := true },
        [CredSource.cache]) := by
  refine ⟨?_, ?_, ?_⟩
  · exact (getCredentials_resolution { credentials := none, secureStorage := true }
      { keyring := none, config := none,
        prompt := [("username", CredValue.str "u"), ("password", CredValue.str "p"),
          ("save", CredValue.bool true)] }).2.2.2.1 rfl rfl rfl rfl
  · exact (getCredentials_resolution { credentials := none, secureStorage := true }
      { keyring := some [("username", CredValue.str "kr")],
        config := some [("username", CredValue.str "cfg")],
        prompt := [] }).2.1 rfl rfl _ rfl
  · exact (getCredentials_resolution
      { credentials := some [("username", CredValue.str "kr")], secureStorage := true }
      { keyring := some [("username", CredValue.str "kr")],
        config := some [("username", CredValue.str "cfg")],
        prompt := [] }).1 _ rfl

/-- **C1 counterexample.** With configured concurrency limit N = 1, a state
with two `fetch_page` operations simultaneously in flight is reachable while
the semaphore still has its full permit count and no slot is held:
`fetch_page` (crawler.py, line 153) admits a fetch through
`wait_for_request()` alone and never acquires a semaphore slot, so in-flight
fetch operations do not hold admitted slots, their admission does not pass
through the bounded counting semaphore, and more than N of them can run
concurrently. -/
theorem two_fetches_in_flight_limit_one :
    ConcReachable 1 { avail := 1, holders := 0, fetchesInFlight := 2 } ∧ ¬(2 ≤ 1) := by
  constructor
  · have h0 : ConcReachable 1 { avail := 1, holders := 0, fetchesInFlight := 0 } :=
      ConcReachable.init
    have h1 := ConcReachable.step h0
      (ConcStep.fetchStart { avail := 1, holders := 0, fetchesInFlight := 0 })
    have h2 := ConcReachable.step h1
      (ConcStep.fetchStart { avail := 1, holders := 0, fetchesInFlight := 1 })
    exact h2
  · decide

/-- **C1 (amended).** The `acquire`/`release` protocol of `RateLimiter`'s
counting semaphore does bound its holders: in every state reachable from a
fresh limiter with `concurrent_requests = N`, the number of held slots plus
the available permits equals N, so at most N holders exist at any instant.
`WebCrawler.fetch_page`, however, performs admission via `wait_for_request`
without acquiring a slot (the `fetchStart` transition), so concurrent
`fetch_page` operations are not bounded by N. -/
theorem semaphore_holders_bounded (n : Nat) (s : ConcState) (h : ConcReachable n s) :
    s.holders + s.avail = n ∧ s.holders ≤ n := by
  induction h with
  | init => simp
  | step hr hstep ih =>
      cases hstep <;> simp_all <;> omega

/-- Witness for C1 (amended) at the initial state with N = 1. -/
theorem semaphore_holders_bounded_witness :
    ({ avail := 1, holders := 0, fetchesInFlight := 0 } : ConcState).holders +
      ({ avail := 1, holders := 0, fetchesInFlight := 0 } : ConcState).avail = 1 ∧
    ({ avail := 1, holders := 0, fetchesInFlight := 0 } : ConcState).holders ≤ 1 :=
  semaphore_holders_bounded 1 _ ConcReachable.init

theorem fetchPage_events (st : CrawlerState) (url : String) (env : TransportEnv) :
    (fetchPage st url env).events =
      (if st.isInitialized then [] else [FetchEvent.initEngine]) ++
        [FetchEvent.waitForRequest, FetchEvent.transportAttempt] := by
  rcases henv : env.raised with _ | m
  · by_cases hb : (initCrawler st).useBrowser = true
    · simp [fetchPage, fetchPage_init_state, henv, hb]
    · rcases hf : fetchWithHttp (initCrawler st)
          (normalizeUrl (initCrawler st).baseUrl url) env.httpResp with e | ⟨body, st₂⟩ <;>
        simp [fetchPage, fetchPage_init_state, henv, hb, hf]
  · simp [fetchPage, fetchPage_init_state, henv]

/-- **C3 counterexample.** A `fetch_page` call whose transport raises reports
nothing to the rate limiter: on an initialized crawler with a transport
exception, the calls `fetch_page` makes are exactly `wait_for_request` and
the transport attempt — no `report_error` (and no `report_success`) occurs
before the typed `CrawlerException` is surfaced. -/
theorem fetchPage_reports_nothing_on_error :
    (fetchPage
        { CrawlerState.mk0 "http://example.com" false with
            isInitialized := true, session := some { closed := false } }
        "http://example.com/x"
        { raised := some "Connection refused",
          httpResp := { status := 200, body := "", cookies := [] },
          browserContent := "", browserCookies := [] }).events =
      [FetchEvent.waitForRequest, FetchEvent.transportAttempt] ∧
    FetchEvent.reportError ∉
      (fetchPage
          { CrawlerState.mk0 "http://example.com" false with
              isInitialized := true, session := some { closed := false } }
          "http://example.com/x"
          { raised := some "Connection refused",
            httpResp := { status := 200, body := "", cookies := [] },
            browserContent := "", browserCookies := [] }).events ∧
    (fetchPage
        { CrawlerState.mk0 "http://example.com" false with
            isInitialized := true, session := some { closed := false } }
        "http://example.com/x"
        { raised := some "Connection refused",
          httpResp := { status := 200, body := "", cookies := [] },
          browserContent := "", browserCookies := [] }).result =
      Except.error (FetchError.crawlerException "http://example.com/x"
        (TransportFailure.exn "Connection refused")) := by
  refine ⟨rfl, by decide, rfl⟩

/-- **C3 (amended).** `fetch_page` never reports a success or a failure to
the rate controller on any path; it performs exactly one transport attempt
(no internal retry); and when the transport raises, it surfaces the typed
`CrawlerException` wrapping the underlying exception to the caller. -/
theorem fetchPage_no_report_no_retry (st : CrawlerState) (url : String)
    (env : TransportEnv) :
    FetchEvent.reportError ∉ (fetchPage st url env).events ∧
    FetchEvent.reportSuccess ∉ (fetchPage st url env).events ∧
    (fetchPage st url env).events.count FetchEvent.transportAttempt = 1 ∧
    (∀ msg, env.raised = some msg →
      (fetchPage st url env).result =
        Except.error (FetchError.crawlerException
          (normalizeUrl (initCrawler st).baseUrl url) (TransportFailure.exn msg))) := by
  have hev := fetchPage_events st url env
  refine ⟨?_, ?_, ?_, ?_⟩
  · rw [hev]
    by_cases h : st.isInitialized <;> simp [h]
  · rw [hev]
    by_cases h : st.isInitialized <;> simp [h]
  · rw [hev]
    by_cases h : st.isInitialized <;> simp [h]
  · intro msg hm
    simp [fetchPage, fetchPage_init_state, hm]

/-- Witness for C3 (amended) at a concrete crawler and a concrete transport
exception. -/
theorem fetchPage_no_report_no_retry_witness :
    FetchEvent.reportError ∉
      (fetchPage (CrawlerState.mk0 "http://example.com" false) "/x"
          { raised := some "boom",
            httpResp := { status := 200, body := "", cookies := [] },
            browserContent := "", browserCookies := [] }).events ∧
    (fetchPage (CrawlerState.mk0 "http://example.com" false) "/x"
        { raised := some "boom",
          httpResp := { status := 200, body := "", cookies := [] },
          browserContent := "", browserCookies := [] }).result =
      Except.error (FetchError.crawlerException "http://example.com/x"
        (TransportFailure.exn "boom")) := by
  constructor
  · exact (fetchPage_no_report_no_retry (CrawlerState.mk0 "http://example.com" false) "/x"
      { raised := some "boom",
        httpResp := { status := 200, body := "", cookies := [] },
        browserContent := "", browserCookies := [] }).1
  · exact (fetchPage_no_report_no_retry (CrawlerState.mk0 "http://example.com" false) "/x"
      { raised := some "boom",
        httpResp := { status := 200, body := "", cookies := [] },
        browserContent := "", browserCookies := [] }).2.2.2 "boom" rfl

end WebCrawlerSpec
